import Mathlib

/-!
Shallow embedding of the xCat Ansible collection
(`plugins/modules/xcat_image.py`, `plugins/modules/xcat_node.py`).

The modules drive a remote control plane over HTTP.  We model an HTTP
response environment as a function from issued calls to status codes,
plus the JSON body returned by a successful existence GET.  Each Python
method becomes a Lean function returning the list of HTTP calls it
issued together with an outcome: normal return, `sys.exit(1)` (fatal),
or an uncaught Python `KeyError`.
-/

namespace Xcat

/-- Python values occurring in the module argument dict and in remote
resource state: strings, booleans, and `None`. -/
inductive PyVal where
  | vstr (s : String)
  | vbool (b : Bool)
  | vnone
deriving DecidableEq, Repr

/-- A Python dict as an insertion-ordered association list (Python dicts
iterate in insertion order, which the two `update` loops rely on). -/
abbrev Dict := List (String × PyVal)

/-- Dict lookup, `d[k]`; `none` models a `KeyError` on direct subscript. -/
def dlookup : Dict → String → Option PyVal
  | [], _ => none
  | (k, v) :: rest, key => if k = key then some v else dlookup rest key

/-- Python f-string rendering of a value (`f"{v}"`). -/
def PyVal.fstr : PyVal → String
  | .vstr s => s
  | .vbool b => if b then "True" else "False"
  | .vnone => "None"

/-- Lift an optional module parameter into a Python value. -/
def optV : Option String → PyVal
  | some s => .vstr s
  | none => .vnone

/-- The caller-facing parameters of `xcat_image` after Ansible argument
processing (`module_args` in `run_xcat_module`): required parameters are
strings, optional ones without a default are `Option String`. -/
structure ImageParams where
  name : String
  image_name : Option String
  state : String
  operation : String
  objtype : String
  exlist : Option String
  imagetype : String
  osarch : String
  osdistroname : Option String
  osname : String
  osvers : String
  otherpkgdir : Option String
  permission : String
  pkgdir : Option String
  pkglist : Option String
  postinstall : Option String
  profile : String
  rootimgdir : Option String
  template : Option String
  update : Bool
  xcat_token : String
  xcat_api : String
deriving DecidableEq, Repr

/-- The `image_args` dict built in `run_xcat_module` (lines 374-397),
in the source's key insertion order. -/
def mkImageArgs (p : ImageParams) : Dict :=
  [ ("name", .vstr p.name),
    ("image_name", optV p.image_name),
    ("state", .vstr p.state),
    ("objtype", .vstr p.objtype),
    ("exlist", optV p.exlist),
    ("imagetype", .vstr p.imagetype),
    ("osarch", .vstr p.osarch),
    ("osdistroname", optV p.osdistroname),
    ("osname", .vstr p.osname),
    ("osvers", .vstr p.osvers),
    ("otherpkgdir", optV p.otherpkgdir),
    ("permission", .vstr p.permission),
    ("pkgdir", optV p.pkgdir),
    ("pkglist", optV p.pkglist),
    ("postinstall", optV p.postinstall),
    ("profile", .vstr p.profile),
    ("rootimgdir", optV p.rootimgdir),
    ("operation", .vstr p.operation),
    ("template", optV p.template),
    ("update", .vbool p.update),
    ("xcat_token", .vstr p.xcat_token),
    ("xcat_api", .vstr p.xcat_api) ]

/-- Provisioning method derived from `state` (lines 399-404): `none`
models the silent no-op branch for an unrecognized state. -/
def provmethod? (state : String) : Option String :=
  if state = "stateless" then some "netboot"
  else if state = "stateful" then some "install"
  else none

/-- The `image_args` dict as seen by `XcatImage`, with the `provmethod`
key appended by `run_xcat_module` for a recognized state. -/
def imageArgsFull (p : ImageParams) : Dict :=
  match provmethod? p.state with
  | some pm => mkImageArgs p ++ [("provmethod", .vstr pm)]
  | none => mkImageArgs p

/-- The `self.__common_options` list of `XcatImage.__init__`. -/
def common_options : List String :=
  [ "objtype", "imagetype", "osarch", "osdistroname", "osname",
    "osvers", "otherpkgdir", "pkgdir", "pkglist", "profile",
    "provmethod" ]

/-- The `self.__stateful_options` list of `XcatImage.__init__`. -/
def stateful_options : List String := ["template"]

/-- The `self.__stateless_options` list of `XcatImage.__init__`. -/
def stateless_options : List String := ["permission", "exlist", "rootimgdir"]

/-- The `self.image_options` list of `XcatImage.__init__` (declared but never
consulted by any method). -/
def image_options : List String :=
  [ "imagetype", "osarch", "osdistroname", "osname",
    "osvers", "otherpkgdir", "pkgdir", "pkglist", "profile",
    "provmethod", "synclists", "template", "permission", "postinstall",
    "rootimgdir" ]

/-- Resource-name resolution of `XcatImage.__init__` (lines 213-219):
`image_name` when it is not `None`, else the f-string
`"{osvers}-{osarch}-{provmethod}-{name}"` over the args dict.  `none`
models a `KeyError` on a missing key. -/
def resolveName (args : Dict) : Option String :=
  match dlookup args "image_name" with
  | none => none
  | some .vnone => do
      let ov ← dlookup args "osvers"
      let oa ← dlookup args "osarch"
      let pm ← dlookup args "provmethod"
      let n ← dlookup args "name"
      pure (ov.fstr ++ "-" ++ oa.fstr ++ "-" ++ pm.fstr ++ "-" ++ n.fstr)
  | some v => some v.fstr

/-- An HTTP call issued by the modules, identified by endpoint shape and
request body.
* `get name` : `GET {base}/osimages/{name}` (existence check);
* `patch name field value` : `PUT {base}/osimages/{name}` with body
  `\x7bfield: value\x7d` (one field per call);
* `create name body` : `POST {base}/osimages/{name}`;
* `inst name action` : `POST {base}/osimages/{name}/instance` with the
  given action tag (`"gen"` or `"pack"`);
* `bootstate node image` : `PUT {base}/nodes/{node}/bootstate` with body
  `\x7b"osimage": image\x7d`. -/
inductive Call where
  | get (name : String)
  | patch (name : String) (field : String) (value : PyVal)
  | create (name : String) (body : Dict)
  | inst (name : String) (action : String)
  | bootstate (node : String) (image : String)
deriving DecidableEq, Repr

/-- The remote control plane, as observed by one run: the status code
each call would receive, and for a 200 existence GET on `name` the inner
dict `json()[name]` of the response body (the remote field state). -/
structure Env where
  status : Call → Nat
  remote : String → Dict

/-- Outcome of a (partial) run: normal value, `sys.exit(1)`, or an
uncaught `KeyError` on the given key. -/
inductive Res (α : Type) where
  | ok (a : α)
  | fatal
  | keyErr (k : String)
deriving DecidableEq, Repr

/-- A traced computation: the HTTP calls issued, in order, and the
outcome. -/
abbrev Traced (α : Type) := List Call × Res α

/-- Sequencing of traced computations: abnormal termination propagates
and stops issuing calls. -/
def seqR {α β : Type} (x : Traced α) (f : α → Traced β) : Traced β :=
  match x with
  | (t, .ok a) => ((t ++ (f a).1), (f a).2)
  | (t, .fatal) => (t, .fatal)
  | (t, .keyErr k) => (t, .keyErr k)

namespace XcatImage

/-- Method `XcatImage.exists` (lines 245-255): one GET; 200 is "exists" (the
body becomes `self.image_contents`, modelled by `env.remote name`),
403 is "does not exist", anything else is `sys.exit(1)`. -/
def checkExists (env : Env) (name : String) : Traced Bool :=
  let c := Call.get name
  if env.status c = 200 then ([c], .ok true)
  else if env.status c = 403 then ([c], .ok false)
  else ([c], .fatal)

/-- Method `XcatImage.generate` (lines 286-295): one instance POST with action
`"gen"`; a non-201 status is `sys.exit(1)`. -/
def generate (env : Env) (name : String) : Traced Unit :=
  let c := Call.inst name "gen"
  if env.status c = 201 then ([c], .ok ()) else ([c], .fatal)

/-- Method `XcatImage.pack_up` (lines 320-329): one instance POST with action
`"pack"`; a non-201 status is `sys.exit(1)`. -/
def pack_up (env : Env) (name : String) : Traced Unit :=
  let c := Call.inst name "pack"
  if env.status c = 201 then ([c], .ok ()) else ([c], .fatal)

/-- The create request body of `XcatImage.create` (lines 300-311):
common options present in the args, then stateful-only options when
`state == 'stateful'`, then stateless-only options when
`state == 'stateless'`. -/
def createBody (args : Dict) : Dict :=
  (common_options.filterMap fun k => (dlookup args k).map fun v => (k, v)) ++
  (if dlookup args "state" = some (.vstr "stateful") then
    stateful_options.filterMap fun k => (dlookup args k).map fun v => (k, v)
  else []) ++
  (if dlookup args "state" = some (.vstr "stateless") then
    stateless_options.filterMap fun k => (dlookup args k).map fun v => (k, v)
  else [])

/-- Method `XcatImage.create` (lines 297-318): one POST of the assembled body;
returns `true` exactly on status 201, `false` on any other status, and
never aborts the process. -/
def create (env : Env) (name : String) (args : Dict) : Traced Bool :=
  let c := Call.create name (createBody args)
  ([c], .ok (env.status c = 201))

/-- First loop of `XcatImage.update` (lines 261-270): for each remote
field, look up the declared value (`KeyError` if the spec does not track
the key), and when they differ issue one PATCH carrying the declared
value; a non-200 status is `sys.exit(1)`, a 200 sets `gen_image`. -/
def diffLoop1 (env : Env) (name : String) (args : Dict) :
    Bool → List (String × PyVal) → Traced Bool
  | gen, [] => ([], .ok gen)
  | gen, (k, v) :: rest =>
    match dlookup args k with
    | none => ([], .keyErr k)
    | some av =>
      if v ≠ av then
        let c := Call.patch name k av
        if env.status c ≠ 200 then ([c], .fatal)
        else
          let r := diffLoop1 env name args true rest
          (c :: r.1, r.2)
      else diffLoop1 env name args gen rest

/-- Second loop of `XcatImage.update` (lines 271-281): for each declared
field that is absent from the remote state and belongs to the common
options, issue one PATCH adding it; a non-200 status is `sys.exit(1)`,
a 200 sets `gen_image`. -/
def diffLoop2 (env : Env) (name : String) (remote : Dict) :
    Bool → List (String × PyVal) → Traced Bool
  | gen, [] => ([], .ok gen)
  | gen, (k, v) :: rest =>
    if (dlookup remote k).isNone ∧ k ∈ common_options then
      let c := Call.patch name k v
      if env.status c ≠ 200 then ([c], .fatal)
      else
        let r := diffLoop2 env name remote true rest
        (c :: r.1, r.2)
    else diffLoop2 env name remote gen rest

/-- Method `XcatImage.update` (lines 257-283): both diff loops over
`self.image_contents[self.image_name]` (here `remote`) and
`self.image_args`, then one `generate` exactly when some PATCH
succeeded. -/
def update (env : Env) (name : String) (args remote : Dict) :
    Traced Unit :=
  seqR (diffLoop1 env name args false remote) fun gen1 =>
  seqR (diffLoop2 env name remote gen1 args) fun gen =>
  if gen then generate env name else ([], .ok ())

end XcatImage

/-- The result dict reported by `run_xcat_module`: `changed` is seeded
`False` (line 365) and never reassigned; `image_name` and `update` are
filled in at lines 418-419 before either `exit_json` call, so check
mode reports the same dict as a normal exit. -/
structure RunResult where
  changed : Bool
  image_name : Option String
  update : Option Bool
deriving DecidableEq, Repr

/-- The `if`/`elif` dispatch of `run_xcat_module` (lines 408-416).
Python's short-circuit `and` evaluates `image.exists()` once for the
first condition and again for whichever `elif` condition tests it. -/
def dispatch (env : Env) (p : ImageParams) (name : String) (args : Dict) :
    Traced Unit :=
  seqR (XcatImage.checkExists env name) fun ex1 =>
  if ex1 ∧ p.update then
    XcatImage.update env name args (env.remote name)
  else if p.operation = "generate" then
    seqR (XcatImage.checkExists env name) fun ex2 =>
    if ex2 then ([], .ok ())
    else
      seqR (XcatImage.create env name args) fun created =>
      if created then XcatImage.generate env name else ([], .ok ())
  else if p.operation = "package" then
    seqR (XcatImage.checkExists env name) fun ex3 =>
    if ex3 then XcatImage.pack_up env name else ([], .ok ())
  else ([], .ok ())

/-- Dispatch and reporting of `run_xcat_module` (lines 399-424) for the
image module.  `checkMode` selects the `exit_json` at line 422 instead
of line 424; both carry the same result dict, and the test is reached
only after all HTTP calls have been made. -/
def runImage (env : Env) (p : ImageParams) (_checkMode : Bool) :
    Traced RunResult :=
  match provmethod? p.state with
  | none => ([], .ok ⟨false, none, none⟩)
  | some pm =>
    let args := mkImageArgs p ++ [("provmethod", .vstr pm)]
    match resolveName args with
    | none => ([], .keyErr "image_name")
    | some name =>
      seqR (dispatch env p name args) fun _ =>
      ([], .ok ⟨false, some name, some p.update⟩)

/-- The caller-facing parameters of `xcat_node`
(`run_xcat_node_module`); `name` and `image` are optional with no
default. -/
structure NodeParams where
  name : Option String
  image : Option String
  action : String
  xcat_token : String
  xcat_api : String
deriving DecidableEq, Repr

namespace XcatNode

/-- Method `XcatNode.set_bootstate` (lines 79-87): one PUT of
`\x7b"osimage": image\x7d` to the node bootstate endpoint; a non-200
status is `sys.exit(1)`. -/
def set_bootstate (env : Env) (node image : String) : Traced Unit :=
  let c := Call.bootstate node image
  if env.status c = 200 then ([c], .ok ()) else ([c], .fatal)

end XcatNode

/-- Dispatch and reporting of `run_xcat_node_module` (lines 119-129):
one bootstate PUT when `action == 'bootstate'`; the check-mode test
comes after the call and exits with `changed = False`, while a normal
exit reports `changed = True`.  The returned Bool is the reported
`changed`.  Python f-strings render a `None` name or image as
`"None"`. -/
def runNode (env : Env) (p : NodeParams) (checkMode : Bool) :
    Traced Bool :=
  seqR (
    if p.action = "bootstate" then
      XcatNode.set_bootstate env (optV p.name).fstr (optV p.image).fstr
    else ([], .ok ())) fun _ =>
  ([], .ok (if checkMode then false else true))

/-- Field name carried by a PATCH call, `none` for other calls. -/
def patchField? : Call → Option String
  | .patch _ k _ => some k
  | _ => none

/-- Whether a call is a PATCH (PUT to an osimages endpoint). -/
def Call.isPatch (c : Call) : Bool := (patchField? c).isSome

/-- Whether a call mutates control-plane state (everything except the
existence GET). -/
def Call.isMutating : Call → Bool
  | .get _ => false
  | _ => true

/-- The fields patched by a trace, in issue order. -/
def patchFields (tr : List Call) : List String :=
  tr.filterMap patchField?

/-- Number of PATCH calls in a trace. -/
def countPatch (tr : List Call) : Nat := (patchFields tr).length

/-- Number of generate calls (instance POST with action `"gen"`). -/
def countGen (tr : List Call) : Nat :=
  (tr.filter fun c => c matches .inst _ "gen").length

/-- Number of create calls (osimages POST). -/
def countCreate (tr : List Call) : Nat :=
  (tr.filter fun c => c matches .create _ _).length

/-- Declared value for a field, `self.image_args[key]`, with a dummy
default that is only reached when the key is untracked. -/
def vOf (args : Dict) (k : String) : PyVal := (dlookup args k).getD .vnone

/-- Written after the spec's diff description, step 1: the remote
fields whose value differs from the spec's declared value, with their
remote values, in remote iteration order. -/
def specDiffKV (args remote : Dict) : Dict :=
  remote.filter fun kv => decide (some kv.2 ≠ dlookup args kv.1)

/-- Written after the spec's diff description, step 2: the declared
fields of the common applicability set that are absent from the remote
state, with their declared values, in declaration order. -/
def specMissingKV (args remote : Dict) : Dict :=
  args.filter fun kv => decide ((dlookup remote kv.1).isNone ∧ kv.1 ∈ common_options)

/-- The canonical name `resolveName` computes for a recognized state
whose provisioning method is `pm`. -/
def canonName (p : ImageParams) (pm : String) : String :=
  match p.image_name with
  | some s => s
  | none => p.osvers ++ "-" ++ p.osarch ++ "-" ++ pm ++ "-" ++ p.name

/-- The literal spec of the documentation scenario: stateless centos8
x86_64 generate run named `ansible_stateless`, everything else at the
module defaults, no update requested. -/
def pLit : ImageParams :=
  ⟨"ansible_stateless", none, "stateless", "generate", "osimage", none,
   "linux", "x86_64", none, "Linux", "centos8", none, "755", none, none,
   none, "compute", none, none, false, "tok", "api"⟩

/-- The literal spec with an update requested. -/
def pUpd : ImageParams := { pLit with update := true }

/-- A control plane where the resource is absent and creation and
instance actions succeed. -/
def envCreate : Env where
  status c := match c with
    | .get _ => 403
    | .create _ _ => 201
    | .inst _ _ => 201
    | _ => 200
  remote _ := []

/-- A control plane where the resource exists and its only stored field
is a `template` value; all mutations succeed. -/
def envTmpl : Env where
  status c := match c with
    | .get _ => 200
    | .inst _ _ => 201
    | _ => 200
  remote _ := [("template", .vstr "remote_tmpl")]

/-- A control plane where the resource exists with two drifted fields
and the PATCH on the second (`osname`) fails with a 500. -/
def envTwoPatch : Env where
  status c := match c with
    | .get _ => 200
    | .patch _ "osname" _ => 500
    | .inst _ _ => 201
    | _ => 200
  remote _ := [("osarch", .vstr "ppc64"), ("osname", .vstr "AIX")]

/-- A control plane whose stored resource has a drifted `osarch` and a
`synclists` field the module does not track. -/
def envSync : Env where
  status c := match c with
    | .get _ => 200
    | .inst _ _ => 201
    | _ => 200
  remote _ := [("osarch", .vstr "ppc64"), ("synclists", .vstr "s")]

/-- A control plane where the resource exists with one drifted field
and every call succeeds. -/
def envAll200 : Env where
  status c := match c with
    | .get _ => 200
    | .patch _ _ _ => 200
    | .create _ _ => 201
    | .inst _ _ => 201
    | .bootstate _ _ => 200
  remote _ := [("osarch", .vstr "ppc64")]

/-- A control plane whose existence GET fails with a server error. -/
def envFatal : Env where
  status c := match c with
    | .get _ => 500
    | .inst _ _ => 201
    | _ => 200
  remote _ := []

/-- A control plane where the resource exists and matches; all calls
succeed. -/
def envExists : Env where
  status c := match c with
    | .get _ => 200
    | .inst _ _ => 201
    | _ => 200
  remote _ := []

namespace XcatImage

/-- When every remote key is tracked and every PATCH gets a 200, the
first diff loop issues exactly one PATCH per differing remote field,
carrying the declared value, and returns `gen_image` accumulated over
them. -/
theorem diffLoop1_ok (env : Env) (name : String) (args : Dict)
    (h2 : ∀ k v, env.status (Call.patch name k v) = 200) :
    ∀ (remote : List (String × PyVal)) (gen : Bool),
      (∀ kv ∈ remote, (dlookup args kv.1).isSome) →
      diffLoop1 env name args gen remote =
        ((specDiffKV args remote).map fun kv => Call.patch name kv.1 (vOf args kv.1),
         .ok (gen || !(specDiffKV args remote).isEmpty)) := by
  intro remote
  induction remote with
  | nil => intro gen _; simp [diffLoop1, specDiffKV]
  | cons kv rest ih =>
    intro gen h1
    obtain ⟨k, v⟩ := kv
    have hk : (dlookup args k).isSome := h1 (k, v) (by simp)
    obtain ⟨av, hav⟩ := Option.isSome_iff_exists.mp hk
    by_cases hne : v = av
    · subst hne
      simp [diffLoop1, hav, specDiffKV]
      simpa [specDiffKV] using ih gen (fun kv hkv => h1 kv (by simp [hkv]))
    · have hdiff : (some v : Option PyVal) ≠ dlookup args k := by
        rw [hav]; simpa using hne
      have hrest := ih true (fun kv hkv => h1 kv (by simp [hkv]))
      simp [diffLoop1, hav, hne, h2, specDiffKV, hdiff, hrest, vOf]

/-- When every PATCH gets a 200, the second diff loop issues exactly one
PATCH per declared common field absent from the remote state, carrying
the declared value. -/
theorem diffLoop2_ok (env : Env) (name : String) (remote : Dict)
    (h2 : ∀ k v, env.status (Call.patch name k v) = 200) :
    ∀ (args : List (String × PyVal)) (gen : Bool),
      diffLoop2 env name remote gen args =
        ((specMissingKV args remote).map fun kv => Call.patch name kv.1 kv.2,
         .ok (gen || !(specMissingKV args remote).isEmpty)) := by
  intro args
  induction args with
  | nil => intro gen; simp [diffLoop2, specMissingKV]
  | cons kv rest ih =>
    intro gen
    obtain ⟨k, v⟩ := kv
    by_cases hc : (dlookup remote k).isNone ∧ k ∈ common_options
    · have hspec : specMissingKV ((k, v) :: rest) remote =
          (k, v) :: specMissingKV rest remote := by
        simp only [specMissingKV, List.filter_cons]
        rw [if_pos (by exact decide_eq_true hc)]
      have hstep : diffLoop2 env name remote gen ((k, v) :: rest) =
          (Call.patch name k v :: (diffLoop2 env name remote true rest).1,
           (diffLoop2 env name remote true rest).2) := by
        simp only [diffLoop2]
        rw [if_pos hc, if_neg (by simp [h2 k v])]
      rw [hstep, ih true, hspec]
      simp
    · have hspec : specMissingKV ((k, v) :: rest) remote =
          specMissingKV rest remote := by
        simp only [specMissingKV, List.filter_cons]
        rw [if_neg (by simpa using hc)]
      have hstep : diffLoop2 env name remote gen ((k, v) :: rest) =
          diffLoop2 env name remote gen rest := by
        simp only [diffLoop2]
        rw [if_neg hc]
      rw [hstep, ih gen, hspec]

/-- Characterization of `XcatImage.update` when every remote field is
tracked by the spec and every PATCH receives a 200: the trace is the
differing-field patches in remote order, then the absent-common-field
patches in declaration order, then one generate call exactly when some
patch was issued. -/
theorem update_char (env : Env) (name : String) (args remote : Dict)
    (h1 : ∀ kv ∈ remote, (dlookup args kv.1).isSome)
    (h2 : ∀ k v, env.status (Call.patch name k v) = 200) :
    update env name args remote =
      (((specDiffKV args remote).map fun kv => Call.patch name kv.1 (vOf args kv.1)) ++
       (((specMissingKV args remote).map fun kv => Call.patch name kv.1 kv.2) ++
        (if !(specDiffKV args remote).isEmpty || !(specMissingKV args remote).isEmpty then
          [Call.inst name "gen"] else [])),
       if !(specDiffKV args remote).isEmpty || !(specMissingKV args remote).isEmpty then
         (if env.status (Call.inst name "gen") = 201 then .ok () else .fatal)
       else .ok ()) := by
  simp only [update, diffLoop1_ok env name args h2 remote false h1,
    diffLoop2_ok env name remote h2 args, Bool.false_or, seqR, generate]
  cases hg : (!(specDiffKV args remote).isEmpty || !(specMissingKV args remote).isEmpty) <;>
    simp [hg] <;> split <;> simp

/-- Every call issued by the first diff loop is a PATCH. -/
theorem diffLoop1_patches (env : Env) (name : String) (args : Dict) :
    ∀ (remote : List (String × PyVal)) (gen : Bool),
      ∀ c ∈ (diffLoop1 env name args gen remote).1, c.isPatch = true := by
  intro remote
  induction remote with
  | nil => intro gen c hc; simp [diffLoop1] at hc
  | cons kv rest ih =>
    intro gen c hc
    obtain ⟨k, v⟩ := kv
    cases hav : dlookup args k with
    | none => simp [diffLoop1, hav] at hc
    | some av =>
      simp only [diffLoop1, hav] at hc
      by_cases hne : v = av
      · rw [if_neg (by simp [hne])] at hc
        exact ih gen c hc
      · rw [if_pos (by simpa using hne)] at hc
        by_cases hs : env.status (Call.patch name k av) ≠ 200
        · rw [if_pos hs] at hc
          simp at hc
          simp [hc, Call.isPatch, patchField?]
        · rw [if_neg hs] at hc
          simp at hc
          rcases hc with hc | hc
          · simp [hc, Call.isPatch, patchField?]
          · exact ih true c hc

/-- Every call issued by the second diff loop is a PATCH. -/
theorem diffLoop2_patches (env : Env) (name : String) (remote : Dict) :
    ∀ (args : List (String × PyVal)) (gen : Bool),
      ∀ c ∈ (diffLoop2 env name remote gen args).1, c.isPatch = true := by
  intro args
  induction args with
  | nil => intro gen c hc; simp [diffLoop2] at hc
  | cons kv rest ih =>
    intro gen c hc
    obtain ⟨k, v⟩ := kv
    simp only [diffLoop2] at hc
    by_cases hcnd : (dlookup remote k).isNone ∧ k ∈ common_options
    · rw [if_pos hcnd] at hc
      by_cases hs : env.status (Call.patch name k v) ≠ 200
      · rw [if_pos hs] at hc
        simp at hc
        simp [hc, Call.isPatch, patchField?]
      · rw [if_neg hs] at hc
        simp at hc
        rcases hc with hc | hc
        · simp [hc, Call.isPatch, patchField?]
        · exact ih true c hc
    · rw [if_neg hcnd] at hc
      exact ih gen c hc

/-- If the first diff loop did not hit `sys.exit(1)`, every PATCH it
issued received a 200. -/
theorem diffLoop1_nofatal (env : Env) (name : String) (args : Dict) :
    ∀ (remote : List (String × PyVal)) (gen : Bool),
      (diffLoop1 env name args gen remote).2 ≠ .fatal →
      ∀ c ∈ (diffLoop1 env name args gen remote).1, env.status c = 200 := by
  intro remote
  induction remote with
  | nil => intro gen _ c hc; simp [diffLoop1] at hc
  | cons kv rest ih =>
    intro gen hnf c hc
    obtain ⟨k, v⟩ := kv
    cases hav : dlookup args k with
    | none => simp [diffLoop1, hav] at hc
    | some av =>
      simp only [diffLoop1, hav] at hnf hc
      by_cases hne : v = av
      · rw [if_neg (by simp [hne])] at hnf hc
        exact ih gen hnf c hc
      · rw [if_pos (by simpa using hne)] at hnf hc
        by_cases hs : env.status (Call.patch name k av) ≠ 200
        · rw [if_pos hs] at hnf; simp at hnf
        · rw [if_neg hs] at hnf hc
          simp at hc
          rcases hc with hc | hc
          · subst hc; simpa using hs
          · exact ih true hnf c hc

/-- If the second diff loop did not hit `sys.exit(1)`, every PATCH it
issued received a 200. -/
theorem diffLoop2_nofatal (env : Env) (name : String) (remote : Dict) :
    ∀ (args : List (String × PyVal)) (gen : Bool),
      (diffLoop2 env name remote gen args).2 ≠ .fatal →
      ∀ c ∈ (diffLoop2 env name remote gen args).1, env.status c = 200 := by
  intro args
  induction args with
  | nil => intro gen _ c hc; simp [diffLoop2] at hc
  | cons kv rest ih =>
    intro gen hnf c hc
    obtain ⟨k, v⟩ := kv
    simp only [diffLoop2] at hnf hc
    by_cases hcnd : (dlookup remote k).isNone ∧ k ∈ common_options
    · rw [if_pos hcnd] at hnf hc
      by_cases hs : env.status (Call.patch name k v) ≠ 200
      · rw [if_pos hs] at hnf; simp at hnf
      · rw [if_neg hs] at hnf hc
        simp at hc
        rcases hc with hc | hc
        · subst hc; simpa using hs
        · exact ih true hnf c hc
    · rw [if_neg hcnd] at hnf hc
      exact ih gen hnf c hc

/-- The second diff loop never raises a `KeyError` (it iterates the
spec's own keys). -/
theorem diffLoop2_noKeyErr (env : Env) (name : String) (remote : Dict) :
    ∀ (args : List (String × PyVal)) (gen : Bool) (k : String),
      (diffLoop2 env name remote gen args).2 ≠ .keyErr k := by
  intro args
  induction args with
  | nil => intro gen k h; simp [diffLoop2] at h
  | cons kv rest ih =>
    intro gen k h
    obtain ⟨k', v'⟩ := kv
    simp only [diffLoop2] at h
    by_cases hcnd : (dlookup remote k').isNone ∧ k' ∈ common_options
    · rw [if_pos hcnd] at h
      by_cases hs : env.status (Call.patch name k' v') ≠ 200
      · rw [if_pos hs] at h; simp at h
      · rw [if_neg hs] at h
        exact ih true k h
    · rw [if_neg hcnd] at h
      exact ih gen k h

/-- When the first diff loop aborts, its trace ends at the failing
PATCH and every earlier PATCH received a 200. -/
theorem diffLoop1_fatal_shape (env : Env) (name : String) (args : Dict) :
    ∀ (remote : List (String × PyVal)) (gen : Bool),
      (diffLoop1 env name args gen remote).2 = .fatal →
      ∃ pre c, (diffLoop1 env name args gen remote).1 = pre ++ [c] ∧
        c.isPatch = true ∧ env.status c ≠ 200 ∧
        ∀ d ∈ pre, env.status d = 200 := by
  intro remote
  induction remote with
  | nil => intro gen h; simp [diffLoop1] at h
  | cons kv rest ih =>
    intro gen h
    obtain ⟨k, v⟩ := kv
    cases hav : dlookup args k with
    | none => simp [diffLoop1, hav] at h
    | some av =>
      simp only [diffLoop1, hav] at h ⊢
      by_cases hne : v = av
      · rw [if_neg (by simp [hne])] at h ⊢
        exact ih gen h
      · rw [if_pos (by simpa using hne)] at h ⊢
        by_cases hs : env.status (Call.patch name k av) ≠ 200
        · rw [if_pos hs] at h ⊢
          exact ⟨[], Call.patch name k av, by simp, by simp [Call.isPatch, patchField?],
            hs, by simp⟩
        · rw [if_neg hs] at h ⊢
          obtain ⟨pre, c, htr, hcp, hcs, hpre⟩ := ih true h
          refine ⟨Call.patch name k av :: pre, c, by simp [htr], hcp, hcs, ?_⟩
          intro d hd
          rcases List.mem_cons.mp hd with hd | hd
          · subst hd; simpa using hs
          · exact hpre d hd

/-- When the second diff loop aborts, its trace ends at the failing
PATCH and every earlier PATCH received a 200. -/
theorem diffLoop2_fatal_shape (env : Env) (name : String) (remote : Dict) :
    ∀ (args : List (String × PyVal)) (gen : Bool),
      (diffLoop2 env name remote gen args).2 = .fatal →
      ∃ pre c, (diffLoop2 env name remote gen args).1 = pre ++ [c] ∧
        c.isPatch = true ∧ env.status c ≠ 200 ∧
        ∀ d ∈ pre, env.status d = 200 := by
  intro args
  induction args with
  | nil => intro gen h; simp [diffLoop2] at h
  | cons kv rest ih =>
    intro gen h
    obtain ⟨k, v⟩ := kv
    simp only [diffLoop2] at h ⊢
    by_cases hcnd : (dlookup remote k).isNone ∧ k ∈ common_options
    · rw [if_pos hcnd] at h ⊢
      by_cases hs : env.status (Call.patch name k v) ≠ 200
      · rw [if_pos hs] at h ⊢
        exact ⟨[], Call.patch name k v, by simp, by simp [Call.isPatch, patchField?],
          hs, by simp⟩
      · rw [if_neg hs] at h ⊢
        obtain ⟨pre, c, htr, hcp, hcs, hpre⟩ := ih true h
        refine ⟨Call.patch name k v :: pre, c, by simp [htr], hcp, hcs, ?_⟩
        intro d hd
        rcases List.mem_cons.mp hd with hd | hd
        · subst hd; simpa using hs
        · exact hpre d hd
    · rw [if_neg hcnd] at h ⊢
      exact ih gen h

/-- When the spec stops tracking a remote key, the first diff loop
patches the differing tracked fields before it and then raises
`KeyError` on the first untracked key, issuing nothing further. -/
theorem diffLoop1_keyErr (env : Env) (name : String) (args : Dict)
    (h2 : ∀ k v, env.status (Call.patch name k v) = 200) :
    ∀ (pre : List (String × PyVal)) (k : String) (v : PyVal)
      (rest : List (String × PyVal)) (gen : Bool),
      (∀ kv ∈ pre, (dlookup args kv.1).isSome) →
      dlookup args k = none →
      diffLoop1 env name args gen (pre ++ (k, v) :: rest) =
        ((specDiffKV args pre).map fun kv => Call.patch name kv.1 (vOf args kv.1),
         .keyErr k) := by
  intro pre
  induction pre with
  | nil => intro k v rest gen _ hk; simp [diffLoop1, hk, specDiffKV]
  | cons kv' pre' ih =>
    intro k v rest gen h1 hk
    obtain ⟨k', v'⟩ := kv'
    have hk' : (dlookup args k').isSome := h1 (k', v') (by simp)
    obtain ⟨av, hav⟩ := Option.isSome_iff_exists.mp hk'
    have h1' : ∀ kv ∈ pre', (dlookup args kv.1).isSome :=
      fun kv hkv => h1 kv (by simp [hkv])
    by_cases hne : v' = av
    · subst hne
      have hspec : specDiffKV args ((k', v') :: pre') = specDiffKV args pre' := by
        simp [specDiffKV, List.filter_cons, hav]
      simp only [List.cons_append, diffLoop1, hav]
      rw [if_neg (by simp), hspec]
      exact ih k v rest gen h1' hk
    · have hspec : specDiffKV args ((k', v') :: pre') =
          (k', v') :: specDiffKV args pre' := by
        simp only [specDiffKV, List.filter_cons]
        rw [if_pos (by exact decide_eq_true (by simp [hav, hne]))]
      simp only [List.cons_append, diffLoop1, hav]
      rw [if_pos (by simpa using hne), if_neg (by simp [h2 k' av])]
      simp [ih k v rest true h1' hk, hspec, vOf, hav]

end XcatImage

/-- Patch fields of a list of PATCH calls built by mapping. -/
theorem patchFields_map_patch (name : String) (f : String × PyVal → PyVal) (l : Dict) :
    patchFields (l.map fun kv => Call.patch name kv.1 (f kv)) = l.map Prod.fst := by
  induction l with
  | nil => rfl
  | cons kv rest ih => simp [patchFields, patchField?] at ih ⊢; exact ih

/-- Patch fields distribute over concatenation. -/
theorem patchFields_append (a b : List Call) :
    patchFields (a ++ b) = patchFields a ++ patchFields b := by
  simp [patchFields, List.filterMap_append]

/-- Mapped PATCH calls contain no generate call. -/
theorem countGen_map_patch (name : String) (f : String × PyVal → PyVal) (l : Dict) :
    countGen (l.map fun kv => Call.patch name kv.1 (f kv)) = 0 := by
  induction l with
  | nil => rfl
  | cons kv rest ih => simpa [countGen] using ih

/-- Generate-call count distributes over concatenation. -/
theorem countGen_append (a b : List Call) :
    countGen (a ++ b) = countGen a + countGen b := by
  simp [countGen, List.filter_append]

/-- A list whose elements are all PATCH calls contains no generate
call. -/
theorem countGen_of_patches (l : List Call)
    (h : ∀ c ∈ l, c.isPatch = true) : countGen l = 0 := by
  induction l with
  | nil => rfl
  | cons c rest ih =>
    have hc := h c (by simp)
    have hrest := ih fun d hd => h d (by simp [hd])
    cases c <;> simp [Call.isPatch, patchField?] at hc <;>
      simpa [countGen] using hrest

/-- C8: when some PATCH of an update run returns a non-success status,
the run aborts at that point: the trace ends at the failing PATCH,
every earlier call is a PATCH that received a 200 and stands with no
rollback or compensating call issued, and no generate call follows. -/
theorem C8_patch_failure_aborts (env : Env) (name : String) (args remote : Dict)
    (h : ∃ c ∈ (XcatImage.update env name args remote).1,
          c.isPatch = true ∧ env.status c ≠ 200) :
    (XcatImage.update env name args remote).2 = .fatal ∧
    ∃ pre c, (XcatImage.update env name args remote).1 = pre ++ [c] ∧
      c.isPatch = true ∧ env.status c ≠ 200 ∧
      (∀ d ∈ pre, d.isPatch = true ∧ env.status d = 200) ∧
      countGen (XcatImage.update env name args remote).1 = 0 := by
  rcases hL1 : XcatImage.diffLoop1 env name args false remote with ⟨t1, r1⟩
  have hp1 : ∀ c ∈ t1, c.isPatch = true := by
    have := XcatImage.diffLoop1_patches env name args remote false
    rw [hL1] at this; exact this
  cases r1 with
  | fatal =>
    have hsh := XcatImage.diffLoop1_fatal_shape env name args remote false
      (by rw [hL1])
    rw [hL1] at hsh
    have hupd : XcatImage.update env name args remote = (t1, .fatal) := by
      simp [XcatImage.update, hL1, seqR]
    obtain ⟨pre, c, htr, hcp, hcs, hpre⟩ := hsh
    simp only at htr
    refine ⟨by simp [hupd], pre, c, by simp [hupd, htr], hcp, hcs, ?_, ?_⟩
    · intro d hd
      exact ⟨hp1 d (by rw [htr]; exact List.mem_append_left _ hd), hpre d hd⟩
    · rw [hupd]
      exact countGen_of_patches t1 hp1
  | keyErr k =>
    have hok : ∀ c ∈ t1, env.status c = 200 := by
      have := XcatImage.diffLoop1_nofatal env name args remote false
        (by rw [hL1]; simp)
      rw [hL1] at this; exact this
    have hupd : XcatImage.update env name args remote = (t1, .keyErr k) := by
      simp [XcatImage.update, hL1, seqR]
    rw [hupd] at h
    obtain ⟨c, hc, _, hcs⟩ := h
    exact absurd (hok c hc) hcs
  | ok g1 =>
    have hok1 : ∀ c ∈ t1, env.status c = 200 := by
      have := XcatImage.diffLoop1_nofatal env name args remote false
        (by rw [hL1]; simp)
      rw [hL1] at this; exact this
    rcases hL2 : XcatImage.diffLoop2 env name remote g1 args with ⟨t2, r2⟩
    have hp2 : ∀ c ∈ t2, c.isPatch = true := by
      have := XcatImage.diffLoop2_patches env name remote args g1
      rw [hL2] at this; exact this
    cases r2 with
    | fatal =>
      have hsh := XcatImage.diffLoop2_fatal_shape env name remote args g1
        (by rw [hL2])
      rw [hL2] at hsh
      have hupd : XcatImage.update env name args remote = (t1 ++ t2, .fatal) := by
        simp [XcatImage.update, hL1, hL2, seqR]
      obtain ⟨pre2, c, htr2, hcp, hcs, hpre2⟩ := hsh
      simp only at htr2
      have hall : ∀ d ∈ t1 ++ pre2, d.isPatch = true ∧ env.status d = 200 := by
        intro d hd
        rcases List.mem_append.mp hd with hd | hd
        · exact ⟨hp1 d hd, hok1 d hd⟩
        · exact ⟨hp2 d (by rw [htr2]; exact List.mem_append_left _ hd), hpre2 d hd⟩
      refine ⟨by simp [hupd], t1 ++ pre2, c,
        by simp [hupd, htr2, List.append_assoc], hcp, hcs, hall, ?_⟩
      rw [hupd]
      refine countGen_of_patches (t1 ++ t2) ?_
      intro d hd
      rcases List.mem_append.mp hd with hd | hd
      · exact hp1 d hd
      · exact hp2 d hd
    | keyErr k =>
      exact absurd (by rw [hL2]) (XcatImage.diffLoop2_noKeyErr env name remote args g1 k)
    | ok g =>
      have hok2 : ∀ c ∈ t2, env.status c = 200 := by
        have := XcatImage.diffLoop2_nofatal env name remote args g1
          (by rw [hL2]; simp)
        rw [hL2] at this; exact this
      have hupd1 : (XcatImage.update env name args remote).1 =
          t1 ++ t2 ++ (if g = true then [Call.inst name "gen"] else []) := by
        cases hg : g <;>
          simp [XcatImage.update, hL1, hL2, seqR, XcatImage.generate, hg]
        split <;> simp
      obtain ⟨c, hc, hcp, hcs⟩ := h
      rw [hupd1] at hc
      rcases List.mem_append.mp hc with hc | hc
      · rcases List.mem_append.mp hc with hc | hc
        · exact absurd (hok1 c hc) hcs
        · exact absurd (hok2 c hc) hcs
      · have hcg : c = Call.inst name "gen" := by
          cases hg : g <;> rw [hg] at hc <;> simpa using hc
        rw [hcg] at hcp
        simp [Call.isPatch, patchField?] at hcp

/-- Name resolution over the full args dict: `image_name` wins when it
is set, else the `osvers-osarch-provmethod-name` composite, for a
recognized state. -/
theorem resolveName_full (p : ImageParams) (pm : String)
    (hpm : provmethod? p.state = some pm) :
    imageArgsFull p = mkImageArgs p ++ [("provmethod", .vstr pm)] ∧
    resolveName (imageArgsFull p) =
      some (match p.image_name with
        | some s => s
        | none => p.osvers ++ "-" ++ p.osarch ++ "-" ++ pm ++ "-" ++ p.name) := by
  constructor
  · simp [imageArgsFull, hpm]
  · cases himg : p.image_name <;>
      simp [imageArgsFull, hpm, resolveName, mkImageArgs, dlookup, optV,
        PyVal.fstr, himg]

/-- A traced computation followed by a call-free continuation issues
exactly its own calls. -/
theorem seqR_fst_nil {α β : Type} (x : Traced α) (g : α → Res β) :
    (seqR x fun a => (([] : List Call), g a)).1 = x.1 := by
  rcases x with ⟨t, r⟩
  cases r <;> simp [seqR]

/-- Unfolding of `runImage` for a recognized state: the dispatch runs
against the canonical name and the full args dict, and the reported
result carries `changed = False`. -/
theorem runImage_eq (env : Env) (p : ImageParams) (cm : Bool) (pm : String)
    (hpm : provmethod? p.state = some pm) :
    runImage env p cm =
      seqR (dispatch env p (canonName p pm) (imageArgsFull p)) fun _ =>
      ([], .ok ⟨false, some (canonName p pm), some p.update⟩) := by
  obtain ⟨hargs, hres⟩ := resolveName_full p pm hpm
  have hres' : resolveName (mkImageArgs p ++ [("provmethod", .vstr pm)]) =
      some (canonName p pm) := by
    rw [← hargs]; exact hres
  simp only [runImage.eq_def, hpm, hres']
  rw [← hargs]

/-- A generate action issues its instance POST regardless of the status
it then receives. -/
theorem generate_fst (env : Env) (name : String) :
    (XcatImage.generate env name).1 = [Call.inst name "gen"] := by
  simp only [XcatImage.generate]
  split <;> rfl

/-- An existence GET contributes no patch field. -/
theorem patchFields_cons_get (n : String) (t : List Call) :
    patchFields (Call.get n :: t) = patchFields t := by
  simp [patchFields, patchField?]

/-- An optional trailing generate call contributes no patch field. -/
theorem patchFields_ite_inst (b : Bool) (n : String) :
    patchFields (if b then [Call.inst n "gen"] else []) = [] := by
  cases b <;> simp [patchFields, patchField?]

/-- C2: for every ImageSpec with `imageName` unset the resolved
canonical name is `osVersion-osArch-provisioningMethod-name` with the
method `netboot` for stateless and `install` for stateful; with
`imageName` set the resolved name equals it exactly, regardless of all
other fields. -/
theorem C2_identity_determinism (p : ImageParams)
    (h : p.state = "stateless" ∨ p.state = "stateful") :
    (p.image_name = none →
      resolveName (imageArgsFull p) =
        some (p.osvers ++ "-" ++ p.osarch ++ "-" ++
          (if p.state = "stateless" then "netboot" else "install") ++
          "-" ++ p.name)) ∧
    (∀ s, p.image_name = some s → resolveName (imageArgsFull p) = some s) := by
  rcases h with h | h
  · have hpm : provmethod? p.state = some "netboot" := by simp [provmethod?, h]
    obtain ⟨-, hres⟩ := resolveName_full p "netboot" hpm
    refine ⟨fun himg => ?_, fun s himg => ?_⟩
    · rw [hres]; simp [himg, h]
    · rw [hres]; simp [himg]
  · have hpm : provmethod? p.state = some "install" := by simp [provmethod?, h]
    obtain ⟨-, hres⟩ := resolveName_full p "install" hpm
    refine ⟨fun himg => ?_, fun s himg => ?_⟩
    · rw [hres]; simp [himg, h]
    · rw [hres]; simp [himg]

/-- C2 witness: the literal stateless spec resolves to the composite
name, by the identity-determinism theorem. -/
theorem C2_identity_witness :
    (pLit.image_name = none →
      resolveName (imageArgsFull pLit) =
        some (pLit.osvers ++ "-" ++ pLit.osarch ++ "-" ++
          (if pLit.state = "stateless" then "netboot" else "install") ++
          "-" ++ pLit.name)) ∧
    (∀ s, pLit.image_name = some s → resolveName (imageArgsFull pLit) = some s) :=
  C2_identity_determinism pLit (Or.inl rfl)

/-- C5: an existence fetch maps 200 to "exists", 403 to "not found",
and any other status aborts the run at once: the whole run's trace is
the single GET and the outcome is fatal, so no create, patch, generate
or package call is attempted. -/
theorem C5_fetch_taxonomy (env : Env) (p : ImageParams) (cm : Bool) (pm : String)
    (hpm : provmethod? p.state = some pm) :
    (env.status (Call.get (canonName p pm)) = 200 →
      XcatImage.checkExists env (canonName p pm) =
        ([Call.get (canonName p pm)], .ok true)) ∧
    (env.status (Call.get (canonName p pm)) = 403 →
      XcatImage.checkExists env (canonName p pm) =
        ([Call.get (canonName p pm)], .ok false)) ∧
    (env.status (Call.get (canonName p pm)) ≠ 200 →
      env.status (Call.get (canonName p pm)) ≠ 403 →
      runImage env p cm = ([Call.get (canonName p pm)], .fatal)) := by
  refine ⟨fun h => by simp [XcatImage.checkExists, h],
          fun h => by simp [XcatImage.checkExists, h],
          fun h1 h2 => ?_⟩
  rw [runImage_eq env p cm pm hpm]
  simp [dispatch, XcatImage.checkExists, h1, h2, seqR]

/-- C5 witness: a 500 on the existence GET of the literal spec aborts
the run with only that GET issued. -/
theorem C5_fetch_witness :
    envFatal.status (Call.get (canonName pLit "netboot")) ≠ 200 ∧
    envFatal.status (Call.get (canonName pLit "netboot")) ≠ 403 ∧
    runImage envFatal pLit false = ([Call.get (canonName pLit "netboot")], .fatal) :=
  ⟨by decide, by decide,
    (C5_fetch_taxonomy envFatal pLit false "netboot" (by decide)).2.2
      (by decide) (by decide)⟩

/-- C6: when the resource exists, no update is requested and the
operation is generate, the run issues the two existence GETs and
nothing else — zero mutating calls. -/
theorem C6_noop_branch (env : Env) (p : ImageParams) (cm : Bool) (pm : String)
    (hpm : provmethod? p.state = some pm)
    (h200 : env.status (Call.get (canonName p pm)) = 200)
    (hupd : p.update = false) (hop : p.operation = "generate") :
    runImage env p cm =
      ([Call.get (canonName p pm), Call.get (canonName p pm)],
       .ok ⟨false, some (canonName p pm), some false⟩) ∧
    (runImage env p cm).1.filter Call.isMutating = [] := by
  have h1 : runImage env p cm =
      ([Call.get (canonName p pm), Call.get (canonName p pm)],
       .ok ⟨false, some (canonName p pm), some false⟩) := by
    rw [runImage_eq env p cm pm hpm]
    simp [dispatch, XcatImage.checkExists, h200, hupd, hop, seqR]
  exact ⟨h1, by rw [h1]; simp [Call.isMutating]⟩

/-- C6 witness: the literal spec against an existing matching resource
issues only the two GETs. -/
theorem C6_noop_witness :
    runImage envExists pLit false =
      ([Call.get (canonName pLit "netboot"), Call.get (canonName pLit "netboot")],
       .ok ⟨false, some (canonName pLit "netboot"), some false⟩) ∧
    (runImage envExists pLit false).1.filter Call.isMutating = [] :=
  C6_noop_branch envExists pLit false "netboot" (by decide) rfl rfl rfl

/-- C10: check mode gates nothing: with check mode on, both modules
issue exactly the same call sequence as with it off, because the
check-mode test is reached only after all calls have been made. -/
theorem C10_check_mode_no_gate (env : Env) (p : ImageParams) (q : NodeParams) :
    (runImage env p true).1 = (runImage env p false).1 ∧
    (runNode env q true).1 = (runNode env q false).1 := by
  refine ⟨rfl, ?_⟩
  by_cases ha : q.action = "bootstate"
  · by_cases hs :
        env.status (Call.bootstate (optV q.name).fstr (optV q.image).fstr) = 200 <;>
      simp [runNode, ha, XcatNode.set_bootstate, hs, seqR]
  · simp [runNode, ha, seqR]

/-- C4: against an absent resource with operation generate, the run
issues exactly one create; a 201 is followed by exactly one generate
call, while any other status is followed by no generate call and the
run still terminates normally (recoverable failure). -/
theorem C4_create_then_generate (env : Env) (p : ImageParams) (cm : Bool) (pm : String)
    (hpm : provmethod? p.state = some pm)
    (hop : p.operation = "generate")
    (hget : env.status (Call.get (canonName p pm)) = 403) :
    (runImage env p cm).1 =
      [Call.get (canonName p pm), Call.get (canonName p pm),
       Call.create (canonName p pm) (XcatImage.createBody (imageArgsFull p))] ++
      (if env.status (Call.create (canonName p pm)
            (XcatImage.createBody (imageArgsFull p))) = 201
       then [Call.inst (canonName p pm) "gen"] else []) ∧
    (XcatImage.create env (canonName p pm) (imageArgsFull p)).2 =
      .ok (env.status (Call.create (canonName p pm)
            (XcatImage.createBody (imageArgsFull p))) = 201) ∧
    (env.status (Call.create (canonName p pm)
        (XcatImage.createBody (imageArgsFull p))) ≠ 201 →
      runImage env p cm =
        ([Call.get (canonName p pm), Call.get (canonName p pm),
          Call.create (canonName p pm) (XcatImage.createBody (imageArgsFull p))],
         .ok ⟨false, some (canonName p pm), some p.update⟩)) := by
  rw [runImage_eq env p cm pm hpm]
  refine ⟨?_, by simp [XcatImage.create], fun hne => ?_⟩
  · rw [seqR_fst_nil]
    by_cases hc : env.status (Call.create (canonName p pm)
        (XcatImage.createBody (imageArgsFull p))) = 201 <;>
      simp [dispatch, XcatImage.checkExists, hget, hop, seqR, XcatImage.create,
        hc, generate_fst]
  · simp [dispatch, XcatImage.checkExists, hget, hop, seqR, XcatImage.create, hne]

/-- C4 witness: the literal spec against an absent resource with a
successful create is followed by exactly one generate call. -/
theorem C4_create_witness :
    (runImage envCreate pLit false).1 =
      [Call.get (canonName pLit "netboot"), Call.get (canonName pLit "netboot"),
       Call.create (canonName pLit "netboot")
         (XcatImage.createBody (imageArgsFull pLit))] ++
      (if envCreate.status (Call.create (canonName pLit "netboot")
            (XcatImage.createBody (imageArgsFull pLit))) = 201
       then [Call.inst (canonName pLit "netboot") "gen"] else []) ∧
    (XcatImage.create envCreate (canonName pLit "netboot") (imageArgsFull pLit)).2 =
      .ok (envCreate.status (Call.create (canonName pLit "netboot")
            (XcatImage.createBody (imageArgsFull pLit))) = 201) ∧
    (envCreate.status (Call.create (canonName pLit "netboot")
        (XcatImage.createBody (imageArgsFull pLit))) ≠ 201 →
      runImage envCreate pLit false =
        ([Call.get (canonName pLit "netboot"), Call.get (canonName pLit "netboot"),
          Call.create (canonName pLit "netboot")
            (XcatImage.createBody (imageArgsFull pLit))],
         .ok ⟨false, some (canonName pLit "netboot"), some pLit.update⟩)) :=
  C4_create_then_generate envCreate pLit false "netboot" (by decide) rfl rfl

/-- C8 witness: with a drifted `osarch` (patched with a 200) and a
drifted `osname` whose PATCH gets a 500, the update run ends fatally at
the `osname` PATCH and the earlier PATCH stands. -/
theorem C8_patch_failure_witness :
    (XcatImage.update envTwoPatch "img" (imageArgsFull pUpd)
        (envTwoPatch.remote "img")).2 = .fatal ∧
    ∃ pre c, (XcatImage.update envTwoPatch "img" (imageArgsFull pUpd)
        (envTwoPatch.remote "img")).1 = pre ++ [c] ∧
      c.isPatch = true ∧ envTwoPatch.status c ≠ 200 ∧
      (∀ d ∈ pre, d.isPatch = true ∧ envTwoPatch.status d = 200) ∧
      countGen (XcatImage.update envTwoPatch "img" (imageArgsFull pUpd)
        (envTwoPatch.remote "img")).1 = 0 :=
  C8_patch_failure_aborts envTwoPatch "img" (imageArgsFull pUpd)
    (envTwoPatch.remote "img") (by decide)

/-- C9: when the remote state carries a key the spec does not track
(all keys before it being tracked), the update run patches the
differing tracked fields before it and then raises `KeyError` on the
untracked key, issuing no further PATCH and no generate call. -/
theorem C9_untracked_key_error (env : Env) (name : String) (args : Dict)
    (h2 : ∀ k v, env.status (Call.patch name k v) = 200)
    (pre : List (String × PyVal)) (k : String) (v : PyVal)
    (rest : List (String × PyVal))
    (hpre : ∀ kv ∈ pre, (dlookup args kv.1).isSome)
    (hk : dlookup args k = none) :
    XcatImage.update env name args (pre ++ (k, v) :: rest) =
      ((specDiffKV args pre).map fun kv => Call.patch name kv.1 (vOf args kv.1),
       .keyErr k) := by
  have h := XcatImage.diffLoop1_keyErr env name args h2 pre k v rest false hpre hk
  simp [XcatImage.update, h, seqR]

/-- C9 witness: a remote `synclists` field — untracked by the module's
args dict — makes the update run raise `KeyError` after patching the
drifted `osarch` that precedes it. -/
theorem C9_untracked_key_witness :
    XcatImage.update envSync "img" (imageArgsFull pUpd)
        ([("osarch", .vstr "ppc64")] ++ ("synclists", .vstr "s") :: []) =
      ((specDiffKV (imageArgsFull pUpd) [("osarch", .vstr "ppc64")]).map
          fun kv => Call.patch "img" kv.1 (vOf (imageArgsFull pUpd) kv.1),
       .keyErr "synclists") :=
  C9_untracked_key_error envSync "img" (imageArgsFull pUpd) (fun k v => rfl)
    [("osarch", .vstr "ppc64")] "synclists" (.vstr "s") [] (by decide) (by decide)

/-- C1 (amended): in an update-requested run against an existing
resource whose every field is tracked by the spec and whose PATCHes all
succeed, the patched fields are exactly the remote fields that differ
from the declared value followed by the declared common fields absent
from the remote state; every field patched in while absent from the
remote state belongs to the common set, but a field present in the
remote state is diffed regardless of its applicability set. -/
theorem C1_diff_patch_set (env : Env) (p : ImageParams) (cm : Bool) (pm : String)
    (hpm : provmethod? p.state = some pm)
    (h200 : env.status (Call.get (canonName p pm)) = 200)
    (hup : p.update = true)
    (h1 : ∀ kv ∈ env.remote (canonName p pm),
      (dlookup (imageArgsFull p) kv.1).isSome)
    (h2 : ∀ k v, env.status (Call.patch (canonName p pm) k v) = 200) :
    patchFields (runImage env p cm).1 =
      (specDiffKV (imageArgsFull p) (env.remote (canonName p pm))).map Prod.fst ++
      (specMissingKV (imageArgsFull p) (env.remote (canonName p pm))).map Prod.fst ∧
    (∀ k ∈ (specMissingKV (imageArgsFull p)
        (env.remote (canonName p pm))).map Prod.fst, k ∈ common_options) ∧
    (∀ k ∈ (specDiffKV (imageArgsFull p)
        (env.remote (canonName p pm))).map Prod.fst,
      ∃ v, (k, v) ∈ env.remote (canonName p pm)) := by
  refine ⟨?_, ?_, ?_⟩
  · rw [runImage_eq env p cm pm hpm, seqR_fst_nil]
    have hd : (dispatch env p (canonName p pm) (imageArgsFull p)).1 =
        Call.get (canonName p pm) ::
          (XcatImage.update env (canonName p pm) (imageArgsFull p)
            (env.remote (canonName p pm))).1 := by
      simp [dispatch, XcatImage.checkExists, h200, hup, seqR]
    rw [hd, patchFields_cons_get,
      XcatImage.update_char env (canonName p pm) (imageArgsFull p)
        (env.remote (canonName p pm)) h1 h2]
    simp only [patchFields_append, patchFields_map_patch, patchFields_ite_inst,
      List.append_nil]
  · intro k hk
    obtain ⟨⟨k', v⟩, hkv, rfl⟩ := List.mem_map.mp hk
    have hpred := (List.mem_filter.mp hkv).2
    exact (of_decide_eq_true hpred).2
  · intro k hk
    obtain ⟨⟨k', v⟩, hkv, rfl⟩ := List.mem_map.mp hk
    exact ⟨v, (List.mem_filter.mp hkv).1⟩

/-- C1 witness: an existing resource whose only stored field is a
drifted `osarch`, with every PATCH succeeding: the patch set is exactly
the drifted field followed by the absent common fields. -/
theorem C1_diff_patch_witness :
    patchFields (runImage envAll200 pUpd false).1 =
      (specDiffKV (imageArgsFull pUpd)
        (envAll200.remote (canonName pUpd "netboot"))).map Prod.fst ++
      (specMissingKV (imageArgsFull pUpd)
        (envAll200.remote (canonName pUpd "netboot"))).map Prod.fst ∧
    (∀ k ∈ (specMissingKV (imageArgsFull pUpd)
        (envAll200.remote (canonName pUpd "netboot"))).map Prod.fst,
      k ∈ common_options) ∧
    (∀ k ∈ (specDiffKV (imageArgsFull pUpd)
        (envAll200.remote (canonName pUpd "netboot"))).map Prod.fst,
      ∃ v, (k, v) ∈ envAll200.remote (canonName pUpd "netboot")) :=
  C1_diff_patch_set envAll200 pUpd false "netboot" (by decide) rfl rfl
    (by decide) (fun k v => rfl)

/-- C1 counterexample: the claim's "fields restricted to the other
state's applicability set are never patched" fails as stated — with
`state = stateless`, a remote-stored `template` (the stateful-only
field) that differs from the declared value is patched. -/
theorem C1_counterexample :
    pUpd.state = "stateless" ∧ "template" ∈ stateful_options ∧
    "template" ∈ patchFields (runImage envTmpl pUpd false).1 := by decide

/-- C3 (amended): provided every remote field is tracked and every
issued PATCH succeeds, an update run issues exactly one generate call
if at least one PATCH call was issued and zero generate calls
otherwise. -/
theorem C3_update_generate_iff (env : Env) (name : String) (args remote : Dict)
    (h1 : ∀ kv ∈ remote, (dlookup args kv.1).isSome)
    (h2 : ∀ k v, env.status (Call.patch name k v) = 200) :
    countGen (XcatImage.update env name args remote).1 =
      if 0 < countPatch (XcatImage.update env name args remote).1
      then 1 else 0 := by
  rw [XcatImage.update_char env name args remote h1 h2]
  simp only [countPatch, patchFields_append, patchFields_map_patch,
    patchFields_ite_inst, List.append_nil, countGen_append, countGen_map_patch,
    List.length_append, List.length_map]
  cases hD : (specDiffKV args remote).isEmpty <;>
    cases hM : (specMissingKV args remote).isEmpty <;>
      simp_all [List.isEmpty_iff, countGen, List.length_pos]

/-- C3 counterexample: a run in which the first PATCH succeeded but the
second failed issues zero generate calls even though at least one PATCH
succeeded, refuting the claimed "if" direction. -/
theorem C3_counterexample :
    (∃ c ∈ (runImage envTwoPatch pUpd false).1,
      c.isPatch = true ∧ envTwoPatch.status c = 200) ∧
    countGen (runImage envTwoPatch pUpd false).1 = 0 := by decide

/-- C3 witness: one drifted field and all—200 PATCHes: one generate
call follows. -/
theorem C3_update_generate_witness :
    countGen (XcatImage.update envAll200 "img" (imageArgsFull pUpd)
        [("osarch", .vstr "ppc64")]).1 =
      if 0 < countPatch (XcatImage.update envAll200 "img" (imageArgsFull pUpd)
          [("osarch", .vstr "ppc64")]).1
      then 1 else 0 :=
  C3_update_generate_iff envAll200 "img" (imageArgsFull pUpd)
    [("osarch", .vstr "ppc64")] (by decide) (fun k v => rfl)

/-- C7 (evaluated at the literal scenario): the canonical name and the
create-then-generate call sequence are as the spec's scenario states,
the create body carries exactly the common plus stateless-only fields,
but the run's reported `changed` is `False`, not `true` as claimed —
`run_xcat_module` never reassigns the seeded `changed = False`. -/
theorem C7_literal_scenario_eval :
    resolveName (imageArgsFull pLit) =
      some "centos8-x86_64-netboot-ansible_stateless" ∧
    runImage envCreate pLit false =
      ([Call.get "centos8-x86_64-netboot-ansible_stateless",
        Call.get "centos8-x86_64-netboot-ansible_stateless",
        Call.create "centos8-x86_64-netboot-ansible_stateless"
          (XcatImage.createBody (imageArgsFull pLit)),
        Call.inst "centos8-x86_64-netboot-ansible_stateless" "gen"],
       .ok ⟨false, some "centos8-x86_64-netboot-ansible_stateless", some false⟩) ∧
    (XcatImage.createBody (imageArgsFull pLit)).map Prod.fst =
      common_options ++ stateless_options := by decide

end Xcat
